import Mathlib

/-
  Verification development for the AMD AMF hardware-encoder plugin
  (plugins/obs-ffmpeg/texture-amf.cpp).

  The definitions below are a shallow embedding of the functions of that
  file that the verified properties refer to.  Machine integers are
  modelled as Nat / Int (with explicit `% 2 ^ w` where a narrowing cast
  occurs in the source, and Int.tdiv for C++ signed division, which
  truncates toward zero).  Vendor-SDK calls whose results flow into the
  embedded control flow (capability queries, submit/query results) are
  modelled as explicit environment parameters.

  Numeric values of vendor-SDK enum constants are taken from the public
  AMF SDK headers that the source file includes
  (AMF/components/VideoEncoderVCE.h, VideoEncoderHEVC.h,
  VideoEncoderAV1.h, AMF/core/Platform.h); they are external-interface
  constants, not part of this repository.
-/

/-- Case-insensitive lowering of one ASCII character, as used by the
host utility astrcmpi. -/
def lowerChar (c : Char) : Char :=
  if c.toNat ≥ 65 ∧ c.toNat ≤ 90 then Char.ofNat (c.toNat + 32) else c

/-- Embedding of astrcmpi(a, b) == 0: case-insensitive string equality. -/
def astrcmpi0 (a b : String) : Bool :=
  a.data.map lowerChar == b.data.map lowerChar

/-- AMF_SECOND, the AMF SDK tick rate (AMF timestamps are in units of
100 nanoseconds), from AMF/core/Platform.h. -/
def AMF_SECOND : Int := 10000000

/-- AVC output data type IDR (AMF SDK, VideoEncoderVCE.h). -/
def AMF_VIDEO_ENCODER_OUTPUT_DATA_TYPE_IDR : Nat := 0

/-- AVC output data type I (AMF SDK, VideoEncoderVCE.h). -/
def AMF_VIDEO_ENCODER_OUTPUT_DATA_TYPE_I : Nat := 1

/-- AVC output data type P (AMF SDK, VideoEncoderVCE.h). -/
def AMF_VIDEO_ENCODER_OUTPUT_DATA_TYPE_P : Nat := 2

/-- AVC output data type B (AMF SDK, VideoEncoderVCE.h). -/
def AMF_VIDEO_ENCODER_OUTPUT_DATA_TYPE_B : Nat := 3

/-- AV1 output frame type KEY (AMF SDK, VideoEncoderAV1.h). -/
def AMF_VIDEO_ENCODER_AV1_OUTPUT_FRAME_TYPE_KEY : Nat := 0

/-- AV1 output frame type INTRA_ONLY (AMF SDK, VideoEncoderAV1.h). -/
def AMF_VIDEO_ENCODER_AV1_OUTPUT_FRAME_TYPE_INTRA_ONLY : Nat := 1

/-- AV1 output frame type INTER (AMF SDK, VideoEncoderAV1.h). -/
def AMF_VIDEO_ENCODER_AV1_OUTPUT_FRAME_TYPE_INTER : Nat := 2

/-- AV1 output frame type SWITCH (AMF SDK, VideoEncoderAV1.h). -/
def AMF_VIDEO_ENCODER_AV1_OUTPUT_FRAME_TYPE_SWITCH : Nat := 3

/-- AV1 output frame type SHOW_EXISTING (AMF SDK, VideoEncoderAV1.h). -/
def AMF_VIDEO_ENCODER_AV1_OUTPUT_FRAME_TYPE_SHOW_EXISTING : Nat := 4

/-- AVC rate-control method CONSTANT_QP (AMF SDK, VideoEncoderVCE.h). -/
def AMF_VIDEO_ENCODER_RATE_CONTROL_METHOD_CONSTANT_QP : Int := 0

/-- AVC rate-control method CBR (AMF SDK, VideoEncoderVCE.h). -/
def AMF_VIDEO_ENCODER_RATE_CONTROL_METHOD_CBR : Int := 1

/-- AVC rate-control method PEAK_CONSTRAINED_VBR (AMF SDK, VideoEncoderVCE.h). -/
def AMF_VIDEO_ENCODER_RATE_CONTROL_METHOD_PEAK_CONSTRAINED_VBR : Int := 2

/-- AVC rate-control method LATENCY_CONSTRAINED_VBR (AMF SDK, VideoEncoderVCE.h). -/
def AMF_VIDEO_ENCODER_RATE_CONTROL_METHOD_LATENCY_CONSTRAINED_VBR : Int := 3

/-- AVC rate-control method QUALITY_VBR (AMF SDK, VideoEncoderVCE.h). -/
def AMF_VIDEO_ENCODER_RATE_CONTROL_METHOD_QUALITY_VBR : Int := 4

/-- AVC rate-control method HIGH_QUALITY_VBR (AMF SDK, VideoEncoderVCE.h). -/
def AMF_VIDEO_ENCODER_RATE_CONTROL_METHOD_HIGH_QUALITY_VBR : Int := 5

/-- AVC rate-control method HIGH_QUALITY_CBR (AMF SDK, VideoEncoderVCE.h). -/
def AMF_VIDEO_ENCODER_RATE_CONTROL_METHOD_HIGH_QUALITY_CBR : Int := 6

/-- AV1 rate-control method CONSTANT_QP (AMF SDK, VideoEncoderAV1.h).
Note the AV1 enum orders its members differently from the AVC enum. -/
def AMF_VIDEO_ENCODER_AV1_RATE_CONTROL_METHOD_CONSTANT_QP : Int := 0

/-- AV1 rate-control method LATENCY_CONSTRAINED_VBR (AMF SDK, VideoEncoderAV1.h). -/
def AMF_VIDEO_ENCODER_AV1_RATE_CONTROL_METHOD_LATENCY_CONSTRAINED_VBR : Int := 1

/-- AV1 rate-control method PEAK_CONSTRAINED_VBR (AMF SDK, VideoEncoderAV1.h). -/
def AMF_VIDEO_ENCODER_AV1_RATE_CONTROL_METHOD_PEAK_CONSTRAINED_VBR : Int := 2

/-- AV1 rate-control method CBR (AMF SDK, VideoEncoderAV1.h). -/
def AMF_VIDEO_ENCODER_AV1_RATE_CONTROL_METHOD_CBR : Int := 3

/-- AV1 rate-control method QUALITY_VBR (AMF SDK, VideoEncoderAV1.h). -/
def AMF_VIDEO_ENCODER_AV1_RATE_CONTROL_METHOD_QUALITY_VBR : Int := 4

/-- AV1 rate-control method HIGH_QUALITY_VBR (AMF SDK, VideoEncoderAV1.h). -/
def AMF_VIDEO_ENCODER_AV1_RATE_CONTROL_METHOD_HIGH_QUALITY_VBR : Int := 5

/-- AV1 rate-control method HIGH_QUALITY_CBR (AMF SDK, VideoEncoderAV1.h). -/
def AMF_VIDEO_ENCODER_AV1_RATE_CONTROL_METHOD_HIGH_QUALITY_CBR : Int := 6

/-- AV1 quality preset HIGH_QUALITY (AMF SDK, VideoEncoderAV1.h). -/
def AMF_VIDEO_ENCODER_AV1_QUALITY_PRESET_HIGH_QUALITY : Int := 0

/-- AV1 quality preset QUALITY (AMF SDK, VideoEncoderAV1.h). -/
def AMF_VIDEO_ENCODER_AV1_QUALITY_PRESET_QUALITY : Int := 30

/-- AV1 quality preset BALANCED (AMF SDK, VideoEncoderAV1.h). -/
def AMF_VIDEO_ENCODER_AV1_QUALITY_PRESET_BALANCED : Int := 70

/-- AV1 quality preset SPEED (AMF SDK, VideoEncoderAV1.h). -/
def AMF_VIDEO_ENCODER_AV1_QUALITY_PRESET_SPEED : Int := 100

/-- amf_codec_type from texture-amf.cpp. -/
inductive amf_codec_type
  | AVC
  | HEVC
  | AV1
deriving DecidableEq

/-- The macroblock_size constant of texture-amf.cpp (line 1120). -/
def macroblock_size : Nat := 16

/-- calc_throughput (texture-amf.cpp lines 1122 to 1132): number of
16x16 macroblocks per frame (ceiling division on each dimension) times
the frame rate.  cx, cy, fps_num, fps_den are the uint32 / positive int
fields of amf_base; the amf_int64 arithmetic of the source never
overflows or goes negative for those, so Nat arithmetic is faithful. -/
def calc_throughput (cx cy fps_num fps_den : Nat) : Nat :=
  let mb_cx := (cx + (macroblock_size - 1)) / macroblock_size
  let mb_cy := (cy + (macroblock_size - 1)) / macroblock_size
  let mb_frame := mb_cx * mb_cy
  mb_frame * fps_num / fps_den

/-- convert_to_amf_ts (texture-amf.cpp lines 1209 to 1213):
ts * AMF_SECOND / fps_den in int64 arithmetic (C++ division truncates
toward zero, hence Int.tdiv). -/
def convert_to_amf_ts (fps_den : Int) (ts : Int) : Int :=
  Int.tdiv (ts * AMF_SECOND) fps_den

/-- convert_to_obs_ts (texture-amf.cpp lines 1215 to 1219):
ts * fps_den / AMF_SECOND in int64 arithmetic. -/
def convert_to_obs_ts (fps_den : Int) (ts : Int) : Int :=
  Int.tdiv (ts * fps_den) AMF_SECOND

/-- Host packet priority levels (libobs obs-avc.h / obs-hevc values,
used by texture-amf.cpp). -/
inductive obs_nal_priority
  | OBS_NAL_PRIORITY_DISPOSABLE
  | OBS_NAL_PRIORITY_LOW
  | OBS_NAL_PRIORITY_HIGH
  | OBS_NAL_PRIORITY_HIGHEST
deriving DecidableEq

/-- The fields of the host encoder_packet written by
convert_to_encoder_packet.  priority is Option-valued because the
switch in the source leaves the field untouched when the output type
matches no case. -/
structure encoder_packet where
  pts : Int
  priority : Option obs_nal_priority
  dts : Int
  keyframe : Bool
deriving DecidableEq

/-- convert_to_encoder_packet (texture-amf.cpp lines 1221 to 1294).
prop_pts is the int64 read back from the "PTS" property attached at
submission; data_pts is the AMF-tick timestamp returned by
AMFData GetPts.  output_type is the uint64 codec-specific output data
type property.  The keyframe flag is compared (for every codec) against
the AVC IDR constant, exactly as in the source (line 1290). -/
def convert_to_encoder_packet (codec : amf_codec_type) (fps_den : Int)
    (dts_offset : Int) (prop_pts : Int) (data_pts : Int)
    (output_type : Nat) : encoder_packet :=
  let priority : Option obs_nal_priority :=
    match codec with
    | .AVC | .HEVC =>
      if output_type = AMF_VIDEO_ENCODER_OUTPUT_DATA_TYPE_IDR then
        some .OBS_NAL_PRIORITY_HIGHEST
      else if output_type = AMF_VIDEO_ENCODER_OUTPUT_DATA_TYPE_I then
        some .OBS_NAL_PRIORITY_HIGH
      else if output_type = AMF_VIDEO_ENCODER_OUTPUT_DATA_TYPE_P then
        some .OBS_NAL_PRIORITY_LOW
      else if output_type = AMF_VIDEO_ENCODER_OUTPUT_DATA_TYPE_B then
        some .OBS_NAL_PRIORITY_DISPOSABLE
      else none
    | .AV1 =>
      if output_type = AMF_VIDEO_ENCODER_AV1_OUTPUT_FRAME_TYPE_KEY then
        some .OBS_NAL_PRIORITY_HIGHEST
      else if output_type = AMF_VIDEO_ENCODER_AV1_OUTPUT_FRAME_TYPE_INTRA_ONLY then
        some .OBS_NAL_PRIORITY_HIGH
      else if output_type = AMF_VIDEO_ENCODER_AV1_OUTPUT_FRAME_TYPE_INTER then
        some .OBS_NAL_PRIORITY_LOW
      else if output_type = AMF_VIDEO_ENCODER_AV1_OUTPUT_FRAME_TYPE_SWITCH then
        some .OBS_NAL_PRIORITY_DISPOSABLE
      else if output_type = AMF_VIDEO_ENCODER_AV1_OUTPUT_FRAME_TYPE_SHOW_EXISTING then
        some .OBS_NAL_PRIORITY_DISPOSABLE
      else none
  let dts0 := convert_to_obs_ts fps_den data_pts
  { pts := prop_pts
    priority := priority
    dts := if dts_offset ≠ 0 then dts0 - dts_offset else dts0
    keyframe := output_type == AMF_VIDEO_ENCODER_OUTPUT_DATA_TYPE_IDR }

/-- amf_hdr_primary (texture-amf.cpp lines 2597 to 2600): truncating
uint32 division, narrowed to amf_uint16. -/
def amf_hdr_primary (num den : Nat) : Nat :=
  num * 50000 / den % 65536

/-- lum_mul constant (texture-amf.cpp line 2602). -/
def lum_mul : Nat := 10000

/-- amf_make_lum (texture-amf.cpp lines 2604 to 2607), uint32 arithmetic. -/
def amf_make_lum (val : Nat) : Nat :=
  val * lum_mul % 2 ^ 32

/-- The AMFHDRMetadata struct fields written by amf_hevc_create_internal.
Primaries and light levels are amf_uint16, luminances amf_uint32; all
modelled as Nat with the narrowing applied where the source narrows. -/
structure AMFHDRMetadata where
  redPrimary0 : Nat
  redPrimary1 : Nat
  greenPrimary0 : Nat
  greenPrimary1 : Nat
  bluePrimary0 : Nat
  bluePrimary1 : Nat
  whitePoint0 : Nat
  whitePoint1 : Nat
  minMasteringLuminance : Nat
  maxMasteringLuminance : Nat
  maxContentLightLevel : Nat
  maxFrameAverageLightLevel : Nat
deriving DecidableEq

/-- The HDR-metadata block of amf_hevc_create_internal (texture-amf.cpp
lines 2648 to 2671).  pq and hlg are is_pq / is_hlg on the context;
obs_hdr_nominal_peak is the int cast of
obs_get_video_hdr_nominal_peak_level().  Returns none when the transfer
characteristic is neither PQ nor HLG (no metadata is built). -/
def amf_hevc_hdr_metadata (pq hlg : Bool) (obs_hdr_nominal_peak : Nat) :
    Option AMFHDRMetadata :=
  if pq || hlg then
    let hdr_nominal_peak_level : Nat :=
      if pq then obs_hdr_nominal_peak else if hlg then 1000 else 0
    some
      { redPrimary0 := amf_hdr_primary 17 25
        redPrimary1 := amf_hdr_primary 8 25
        greenPrimary0 := amf_hdr_primary 53 200
        greenPrimary1 := amf_hdr_primary 69 100
        bluePrimary0 := amf_hdr_primary 3 20
        bluePrimary1 := amf_hdr_primary 3 50
        whitePoint0 := amf_hdr_primary 3127 10000
        whitePoint1 := amf_hdr_primary 329 1000
        minMasteringLuminance := 0
        maxMasteringLuminance := amf_make_lum hdr_nominal_peak_level
        maxContentLightLevel := hdr_nominal_peak_level % 65536
        maxFrameAverageLightLevel := hdr_nominal_peak_level % 65536 }
  else none

/-- get_av1_rate_control (texture-amf.cpp lines 2809 to 2827). -/
def get_av1_rate_control (rc_str : String) : Int :=
  if astrcmpi0 rc_str "cqp" then
    AMF_VIDEO_ENCODER_AV1_RATE_CONTROL_METHOD_CONSTANT_QP
  else if astrcmpi0 rc_str "vbr_lat" then
    AMF_VIDEO_ENCODER_AV1_RATE_CONTROL_METHOD_LATENCY_CONSTRAINED_VBR
  else if astrcmpi0 rc_str "vbr" then
    AMF_VIDEO_ENCODER_AV1_RATE_CONTROL_METHOD_PEAK_CONSTRAINED_VBR
  else if astrcmpi0 rc_str "cbr" then
    AMF_VIDEO_ENCODER_AV1_RATE_CONTROL_METHOD_CBR
  else if astrcmpi0 rc_str "qvbr" then
    AMF_VIDEO_ENCODER_AV1_RATE_CONTROL_METHOD_QUALITY_VBR
  else if astrcmpi0 rc_str "hqvbr" then
    AMF_VIDEO_ENCODER_AV1_RATE_CONTROL_METHOD_HIGH_QUALITY_VBR
  else if astrcmpi0 rc_str "hqcbr" then
    AMF_VIDEO_ENCODER_AV1_RATE_CONTROL_METHOD_HIGH_QUALITY_CBR
  else
    AMF_VIDEO_ENCODER_AV1_RATE_CONTROL_METHOD_CBR

/-- The AV1 encoder properties set by amf_av1_update_data. -/
inductive av1_property
  | TARGET_BITRATE
  | PEAK_BITRATE
  | VBV_BUFFER_SIZE
  | FILLER_DATA
  | QVBR_QUALITY_LEVEL
  | Q_INDEX_INTRA
  | Q_INDEX_INTER
deriving DecidableEq, BEq

/-- AMF property values as set by amf_av1_update_data: numeric values
(ℚ so that the one double-typed value, bitrate * 1.5, is exact) and
booleans. -/
inductive amf_variant
  | num (q : ℚ)
  | boolean (b : Bool)
deriving DecidableEq

/-- amf_av1_update_data (texture-amf.cpp lines 2839 to 2861), as the
ordered list of (property, value) pairs it sets.  Note that the source
compares rc, an AV1-namespace value produced by get_av1_rate_control,
against the AVC-namespace constants
AMF_VIDEO_ENCODER_RATE_CONTROL_METHOD_CBR and
AMF_VIDEO_ENCODER_RATE_CONTROL_METHOD_PEAK_CONSTRAINED_VBR on its
filler-data / peak-bitrate branch (lines 2848 and 2851); the embedding
reproduces those comparisons exactly. -/
def amf_av1_update_data (rc : Int) (bitrate cq_value : Int) :
    List (av1_property × amf_variant) :=
  if rc ≠ AMF_VIDEO_ENCODER_AV1_RATE_CONTROL_METHOD_CONSTANT_QP ∧
     rc ≠ AMF_VIDEO_ENCODER_AV1_RATE_CONTROL_METHOD_QUALITY_VBR then
    [(.TARGET_BITRATE, .num (bitrate : ℚ)),
     (.PEAK_BITRATE, .num (bitrate : ℚ)),
     (.VBV_BUFFER_SIZE, .num (bitrate : ℚ))] ++
    (if rc = AMF_VIDEO_ENCODER_RATE_CONTROL_METHOD_CBR then
       [(.FILLER_DATA, .boolean true)]
     else if rc = AMF_VIDEO_ENCODER_RATE_CONTROL_METHOD_PEAK_CONSTRAINED_VBR ∨
             rc = AMF_VIDEO_ENCODER_AV1_RATE_CONTROL_METHOD_HIGH_QUALITY_VBR then
       [(.PEAK_BITRATE, .num ((bitrate : ℚ) * (3 / 2)))]
     else [])
  else
    let qp : Int := cq_value * 4
    [(.QVBR_QUALITY_LEVEL, .num ((Int.tdiv qp 4 : Int) : ℚ)),
     (.Q_INDEX_INTRA, .num (qp : ℚ)),
     (.Q_INDEX_INTER, .num (qp : ℚ))]

/-- The value a property ends up with after a list of SetProperty calls
(the last set wins), or none if it was never set. -/
def last_set_value (props : List (av1_property × amf_variant))
    (p : av1_property) : Option amf_variant :=
  ((props.filter (fun q => q.1 == p)).getLast?).map (fun q => q.2)

/-- get_av1_preset (texture-amf.cpp lines 2794 to 2807). -/
def get_av1_preset (preset : String) : Int :=
  if astrcmpi0 preset "highquality" then
    AMF_VIDEO_ENCODER_AV1_QUALITY_PRESET_HIGH_QUALITY
  else if astrcmpi0 preset "quality" then
    AMF_VIDEO_ENCODER_AV1_QUALITY_PRESET_QUALITY
  else if astrcmpi0 preset "balanced" then
    AMF_VIDEO_ENCODER_AV1_QUALITY_PRESET_BALANCED
  else if astrcmpi0 preset "speed" then
    AMF_VIDEO_ENCODER_AV1_QUALITY_PRESET_SPEED
  else
    AMF_VIDEO_ENCODER_AV1_QUALITY_PRESET_BALANCED

/-- State touched by check_preset_compatibility: the local preset
string, the max_throughput and throughput fields of amf_base, plus two
observation traces (the QUALITY_PRESET values applied through set_opt,
in order, and the presets at which refresh_throughput_caps re-queried
the device capability object). -/
structure preset_state where
  preset : String
  max_throughput : Int
  throughput : Int
  quality_preset_trace : List Int
  caps_queries : List String
deriving DecidableEq

/-- refresh_throughput_caps (texture-amf.cpp lines 1156 to 1167).
get_preset is the codec dispatch get_preset(enc, preset) of the source;
caps models GetCaps plus GetProperty(CAP_MAX_THROUGHPUT): caps p is the
max throughput the device reports with preset p applied, or none when
the query fails (in which case max_throughput is left unchanged). -/
def refresh_throughput_caps (get_preset : String → Int)
    (caps : String → Option Int) (st : preset_state) : preset_state :=
  let st :=
    { st with
      quality_preset_trace := st.quality_preset_trace ++ [get_preset st.preset]
      caps_queries := st.caps_queries ++ [st.preset] }
  match caps st.preset with
  | some v => { st with max_throughput := v }
  | none => st

/-- check_preset_compatibility (texture-amf.cpp lines 1169 to 1207).
The three if-blocks are sequential (not else-if), so a preset dropped by
an earlier block is re-examined by the later ones, exactly as in the
source. -/
def check_preset_compatibility (get_preset : String → Int)
    (caps : String → Option Int) (st0 : preset_state) : preset_state :=
  let st1 :=
    if astrcmpi0 st0.preset "highQuality" then
      if st0.max_throughput = 0 then
        let st := { st0 with preset := "quality" }
        { st with
          quality_preset_trace := st.quality_preset_trace ++ [get_preset st.preset] }
      else if st0.max_throughput < st0.throughput then
        refresh_throughput_caps get_preset caps { st0 with preset := "quality" }
      else st0
    else st0
  let st2 :=
    if astrcmpi0 st1.preset "quality" then
      if st1.max_throughput = 0 then
        let st := { st1 with preset := "balanced" }
        { st with
          quality_preset_trace := st.quality_preset_trace ++ [get_preset st.preset] }
      else if st1.max_throughput < st1.throughput then
        refresh_throughput_caps get_preset caps { st1 with preset := "balanced" }
      else st1
    else st1
  if astrcmpi0 st2.preset "balanced" then
    if st2.max_throughput ≠ 0 ∧ st2.max_throughput < st2.throughput then
      refresh_throughput_caps get_preset caps { st2 with preset := "speed" }
    else st2
  else st2

/-- Result of one SubmitInput call, as seen by amf_encode_base. -/
inductive submit_result
  | AMF_OK
  | AMF_NEED_MORE_INPUT
  | AMF_INPUT_FULL
  | failed (code : Int)
deriving DecidableEq

/-- Result code of one QueryOutput call: AMF_OK, AMF_REPEAT, or any
other (error) code. -/
inductive query_code
  | AMF_OK
  | AMF_REPEAT
  | failed (code : Int)
deriving DecidableEq

/-- One QueryOutput response: its result code and the (possibly null)
output data, identified by an abstract id. -/
structure query_step where
  res : query_code
  data : Option Nat
deriving DecidableEq

/-- The thrown amf_error outcomes of amf_encode_base. -/
inductive amf_encode_error
  | submit_timed_out
  | submit_failed (code : Int)
  | query_failed (code : Int)
deriving DecidableEq

/-- The inner QueryOutput drain loop of amf_encode_base (texture-amf.cpp
lines 1335 to 1344): every non-null output is appended to the queue, a
result code other than AMF_OK / AMF_REPEAT throws (after the append),
and the loop repeats while outputs keep arriving.  The environment is
the list of QueryOutput responses still pending; an exhausted list
models an encoder with nothing further to report (QueryOutput yields no
data). -/
def query_loop : List query_step → List Nat →
    Except amf_encode_error (List query_step × List Nat)
  | [], queued => .ok ([], queued)
  | step :: rest, queued =>
    let queued :=
      match step.data with
      | some d => queued ++ [d]
      | none => queued
    match step.res with
    | .failed c => .error (.query_failed c)
    | _ =>
      match step.data with
      | some _ => query_loop rest queued
      | none => .ok (rest, queued)

/-- os_sleep_ms interval of the input-full retry (texture-amf.cpp
line 1320). -/
def os_sleep_interval_ms : Nat := 1

/-- The submit timeout, in seconds (texture-amf.cpp line 1323). -/
def submit_timeout_sec : Nat := 5

/-- Number of input-full retries strictly before the elapsed-wait check
reaches the 5-second timeout, under the idealized clock in which each
retry costs exactly the 1 ms sleep: the n-th retry measures n ms of
elapsed wait and times out as soon as that reaches 5000 ms. -/
def submit_fuel : Nat := submit_timeout_sec * 1000 / os_sleep_interval_ms - 1

/-- The submit/query loop of amf_encode_base (texture-amf.cpp lines
1309 to 1345).  submit gives the result of the n-th SubmitInput call of
this invocation; fuel counts the input-full retries remaining before
the elapsed-wait check trips (see submit_fuel).  Each iteration first
submits, then (unless it threw) drains QueryOutput; success or
need-more-input ends the loop after that drain. -/
def submit_query_loop (submit : Nat → submit_result) :
    Nat → Nat → List query_step → List Nat →
    Except amf_encode_error (List query_step × List Nat)
  | fuel, sidx, queries, queued =>
    match submit sidx with
    | .AMF_OK | .AMF_NEED_MORE_INPUT => query_loop queries queued
    | .failed c => .error (.submit_failed c)
    | .AMF_INPUT_FULL =>
      match fuel with
      | 0 => .error .submit_timed_out
      | fuel' + 1 =>
        match query_loop queries queued with
        | .error e => .error e
        | .ok (rest, queued') =>
          submit_query_loop submit fuel' (sidx + 1) rest queued'

/-- amf_encode_base (texture-amf.cpp lines 1300 to 1359) for one call:
run the submit/query loop on the queued-packets FIFO, then produce a
packet exactly when the FIFO is non-empty, by popping its front.  The
result is (received_packet, popped output id, remaining FIFO). -/
def amf_encode_base (submit : Nat → submit_result)
    (queries : List query_step) (queued : List Nat) :
    Except amf_encode_error (Bool × Option Nat × List Nat) :=
  match submit_query_loop submit submit_fuel 0 queries queued with
  | .error e => .error e
  | .ok (_, q) =>
    match q with
    | [] => .ok (false, none, [])
    | p :: rest => .ok (true, some p, rest)

/-- The sequence of output ids one drain run appends to the FIFO: the
data of every response up to (and not including) the first null one. -/
def drained_outputs : List query_step → List Nat
  | [] => []
  | step :: rest =>
    match step.data with
    | some d => d :: drained_outputs rest
    | none => []

/-- Builds a list of QueryOutput responses whose codes are all AMF_OK or
AMF_REPEAT (true picks AMF_OK), used to quantify over all error-free
drain environments. -/
def ok_steps : List (Bool × Option Nat) → List query_step
  | [] => []
  | (b, d) :: rest =>
    { res := if b then query_code.AMF_OK else query_code.AMF_REPEAT,
      data := d } :: ok_steps rest

/-- The host video formats relevant to the fallback constructors. -/
inductive video_format
  | VIDEO_FORMAT_I420
  | VIDEO_FORMAT_NV12
  | VIDEO_FORMAT_RGBA
  | VIDEO_FORMAT_BGRA
  | VIDEO_FORMAT_BGRX
  | VIDEO_FORMAT_I010
  | VIDEO_FORMAT_P010
deriving DecidableEq

/-- The host colorspaces relevant to the fallback constructors. -/
inductive video_colorspace
  | VIDEO_CS_DEFAULT
  | VIDEO_CS_601
  | VIDEO_CS_709
  | VIDEO_CS_SRGB
  | VIDEO_CS_2100_PQ
  | VIDEO_CS_2100_HLG
deriving DecidableEq

/-- obs_module_text, modelled as the identity on the lookup key (the
host returns a localized text for the key; the key identifies the
message). -/
def obs_module_text (key : String) : String := key

/-- Outcome of the pre-SDK validation of a fallback constructor:
last_error is the user-facing message set through
obs_encoder_set_last_error (none if not set); proceeds_to_sdk is false
exactly when the constructor throws before any vendor-SDK work and thus
returns nullptr to the host. -/
structure fallback_create_result where
  last_error : Option String
  proceeds_to_sdk : Bool
deriving DecidableEq

/-- The format/colorspace gate of amf_avc_create_fallback
(texture-amf.cpp lines 2365 to 2405): I010/P010 sources are rejected as
10-bit-on-AVC; any other format against a Rec. 2100 colorspace is
rejected as 8-bit HDR.  Everything past this gate (the SDK-backed
construction) is outside this model. -/
def amf_avc_create_fallback (format : video_format)
    (colorspace : video_colorspace) : fallback_create_result :=
  match format with
  | .VIDEO_FORMAT_I010 | .VIDEO_FORMAT_P010 =>
    { last_error := some (obs_module_text "AMF.10bitUnsupportedAvc")
      proceeds_to_sdk := false }
  | _ =>
    match colorspace with
    | .VIDEO_CS_2100_PQ | .VIDEO_CS_2100_HLG =>
      { last_error := some (obs_module_text "AMF.8bitUnsupportedHdr")
        proceeds_to_sdk := false }
    | _ => { last_error := none, proceeds_to_sdk := true }

/-- The format/colorspace gate of amf_hevc_create_fallback
(texture-amf.cpp lines 2714 to 2750): I010/P010 sources pass; any other
format against a Rec. 2100 colorspace is rejected as 8-bit HDR. -/
def amf_hevc_create_fallback (format : video_format)
    (colorspace : video_colorspace) : fallback_create_result :=
  match format with
  | .VIDEO_FORMAT_I010 | .VIDEO_FORMAT_P010 =>
    { last_error := none, proceeds_to_sdk := true }
  | _ =>
    match colorspace with
    | .VIDEO_CS_2100_PQ | .VIDEO_CS_2100_HLG =>
      { last_error := some (obs_module_text "AMF.8bitUnsupportedHdr")
        proceeds_to_sdk := false }
    | _ => { last_error := none, proceeds_to_sdk := true }

/-- The format/colorspace gate of amf_av1_create_fallback
(texture-amf.cpp lines 3020 to 3057), identical in shape to the HEVC
gate. -/
def amf_av1_create_fallback (format : video_format)
    (colorspace : video_colorspace) : fallback_create_result :=
  match format with
  | .VIDEO_FORMAT_I010 | .VIDEO_FORMAT_P010 =>
    { last_error := none, proceeds_to_sdk := true }
  | _ =>
    match colorspace with
    | .VIDEO_CS_2100_PQ | .VIDEO_CS_2100_HLG =>
      { last_error := some (obs_module_text "AMF.8bitUnsupportedHdr")
        proceeds_to_sdk := false }
    | _ => { last_error := none, proceeds_to_sdk := true }

/-- The pool state touched by the surface-release callbacks: the
destroying flag, the available pool (a vector, push_back appends) and
the active map from surface identity to texture/buffer identity (an
unordered_map, keys unique; modelled as an association list). -/
structure surface_pool_state where
  destroying : Bool
  available : List Nat
  active : List (Nat × Nat)
deriving DecidableEq

/-- amf_texencode OnSurfaceDataRelease (texture-amf.cpp lines 318 to
330): a no-op once destroying is set; otherwise, if the surface is in
the active map, move its texture to the available pool and erase the
map entry; otherwise do nothing. -/
def amf_texencode_OnSurfaceDataRelease (st : surface_pool_state)
    (surf : Nat) : surface_pool_state :=
  if st.destroying then st
  else
    match st.active.lookup surf with
    | some tex =>
      { st with
        available := st.available ++ [tex]
        active := st.active.filter (fun p => !(p.1 == surf)) }
    | none => st

/-- amf_fallback OnSurfaceDataRelease (texture-amf.cpp lines 528 to
540): the same logic over the buffer pool. -/
def amf_fallback_OnSurfaceDataRelease (st : surface_pool_state)
    (surf : Nat) : surface_pool_state :=
  if st.destroying then st
  else
    match st.active.lookup surf with
    | some buf =>
      { st with
        available := st.available ++ [buf]
        active := st.active.filter (fun p => !(p.1 == surf)) }
    | none => st

/- ========================================================================= -/
/- Helper lemmas                                                             -/

/-- Nat ceiling division by 16: the (w + 15) / 16 idiom of
calc_throughput computes the ceiling of w / 16. -/
theorem nat_add_fifteen_div_sixteen (w : ℕ) :
    (w + 15) / 16 = Nat.ceil ((w : ℚ) / 16) := by
  refine le_antisymm ?_ ?_
  · have h := Nat.le_ceil ((w : ℚ) / 16)
    rw [div_le_iff₀ (by norm_num : (0 : ℚ) < 16)] at h
    have h3 : (w : ℚ) ≤ 16 * (Nat.ceil ((w : ℚ) / 16) : ℚ) := by linarith
    have h2 : w ≤ 16 * Nat.ceil ((w : ℚ) / 16) := by exact_mod_cast h3
    omega
  · rw [Nat.ceil_le, div_le_iff₀ (by norm_num : (0 : ℚ) < 16)]
    have h : w ≤ ((w + 15) / 16) * 16 := by omega
    exact_mod_cast h

/-- A perpetually full input queue exhausts any retry budget with a
timeout error. -/
theorem submit_query_loop_input_full (fuel sidx : ℕ) (queued : List ℕ) :
    submit_query_loop (fun _ => submit_result.AMF_INPUT_FULL) fuel sidx [] queued =
      .error .submit_timed_out := by
  induction fuel generalizing sidx queued with
  | zero => rfl
  | succ fuel ih =>
    show submit_query_loop _ (fuel + 1) sidx [] queued = _
    rw [submit_query_loop]
    simpa [query_loop] using ih (sidx + 1) queued

/-- An error-free drain run returns the input FIFO extended with
exactly the non-null outputs delivered up to the first null response. -/
theorem query_loop_ok_steps (outs : List (Bool × Option ℕ)) (queued : List ℕ) :
    ∃ rest, query_loop (ok_steps outs) queued =
      .ok (rest, queued ++ drained_outputs (ok_steps outs)) := by
  induction outs generalizing queued with
  | nil => exact ⟨[], by simp [ok_steps, query_loop, drained_outputs]⟩
  | cons step rest ih =>
    obtain ⟨b, d⟩ := step
    cases d with
    | none =>
      refine ⟨ok_steps rest, ?_⟩
      cases b <;> simp [ok_steps, query_loop, drained_outputs]
    | some v =>
      obtain ⟨r, hr⟩ := ih (queued ++ [v])
      refine ⟨r, ?_⟩
      cases b <;> simp [ok_steps, query_loop, drained_outputs, hr]

/-- After erasing every binding of a key from an association list, a
lookup of that key fails. -/
theorem lookup_filter_self_none (l : List (ℕ × ℕ)) (surf : ℕ) :
    (l.filter (fun p => !(p.1 == surf))).lookup surf = none := by
  induction l with
  | nil => rfl
  | cons hd tl ih =>
    by_cases h : hd.1 = surf
    · simp [List.filter_cons, h, ih]
    · have hb : (!(hd.1 == surf)) = true := by simp [h]
      have hs : (surf == hd.1) = false := by simp [Ne.symm h]
      simp [List.filter_cons, hb, List.lookup, hs, ih]

/- ========================================================================= -/
/- Claim theorems                                                            -/

/-- Claim C8: calc_throughput computes, for every width, height,
fps_num, fps_den, mb_frame = ceil(width / 16) * ceil(height / 16)
(macroblock size 16, ceiling division) and
throughput = mb_frame * fps_num / fps_den; for width 1920, height 1080,
fps 60/1 this yields 489600, and ceil(100 / 16) = 7, i.e. the
macroblock count of a width-100 frame dimension is 7. -/
theorem calc_throughput_spec :
    (∀ cx cy fps_num fps_den : ℕ,
      calc_throughput cx cy fps_num fps_den =
        Nat.ceil ((cx : ℚ) / 16) * Nat.ceil ((cy : ℚ) / 16) * fps_num / fps_den) ∧
    calc_throughput 1920 1080 60 1 = 489600 ∧
    (100 + (macroblock_size - 1)) / macroblock_size = 7 ∧
    Nat.ceil ((100 : ℚ) / 16) = 7 := by
  refine ⟨?_, by decide, by decide, ?_⟩
  · intro cx cy fps_num fps_den
    simp [calc_throughput, macroblock_size, nat_add_fifteen_div_sixteen]
  · have h := nat_add_fifteen_div_sixteen 100
    norm_num at h ⊢
    exact h.symm

/-- Claim C4: timestamp submission converts a host timestamp ts to
vendor ticks as ts * AMF_SECOND / fps_den (the SDK tick constant and
fps_den alone), retrieval converts back as ts * fps_den / AMF_SECOND,
the packet decode timestamp is the converted output timestamp minus the
DTS offset (subtracted exactly when one was established, which equals
the unconditional subtraction), and a context with dts_offset = 2
reports a converted output timestamp of 10 as 8. -/
theorem convert_ts_dts_offset_spec :
    AMF_SECOND = 10000000 ∧
    (∀ fps_den ts : Int,
      convert_to_amf_ts fps_den ts = Int.tdiv (ts * AMF_SECOND) fps_den) ∧
    (∀ fps_den ts : Int,
      convert_to_obs_ts fps_den ts = Int.tdiv (ts * fps_den) AMF_SECOND) ∧
    (∀ (codec : amf_codec_type) (fps_den dts_offset prop_pts data_pts : Int)
       (output_type : ℕ),
      (convert_to_encoder_packet codec fps_den dts_offset prop_pts data_pts
          output_type).dts =
        convert_to_obs_ts fps_den data_pts - dts_offset) ∧
    convert_to_obs_ts 1 100000000 = 10 ∧
    (convert_to_encoder_packet .AVC 1 2 0 100000000 2).dts = 8 := by
  refine ⟨rfl, fun _ _ => rfl, fun _ _ => rfl, ?_, by decide, by decide⟩
  intro codec fps_den dts_offset prop_pts data_pts output_type
  by_cases h : dts_offset = 0 <;>
    simp [convert_to_encoder_packet, h]

/-- Claim C6: the HEVC HDR static metadata uses
primary(num, den) = round(num * 50000 / den) as a 16-bit value on the
fixed chromaticity pairs red (17/25, 8/25), green (53/200, 69/100),
blue (3/20, 3/50), white point (3127/10000, 329/1000); minimum
mastering luminance is 0, maximum mastering luminance is
peak_nits * 10000, content and frame-average light levels are
peak_nits, with peak_nits the host HDR nominal peak under PQ and a
fixed 1000 under HLG (so PQ at 1000 nits and HLG both give maximum
mastering luminance 10000000 and light levels 1000). -/
theorem amf_hevc_hdr_metadata_spec (peak : ℕ) (hpeak : peak < 65536) :
    amf_hevc_hdr_metadata true false peak =
      some ⟨34000, 16000, 13250, 34500, 7500, 3000, 15635, 16450,
            0, peak * 10000, peak, peak⟩ ∧
    (∀ host_peak : ℕ,
      amf_hevc_hdr_metadata false true host_peak =
        some ⟨34000, 16000, 13250, 34500, 7500, 3000, 15635, 16450,
              0, 10000000, 1000, 1000⟩) ∧
    amf_hevc_hdr_metadata true false 1000 =
      some ⟨34000, 16000, 13250, 34500, 7500, 3000, 15635, 16450,
            0, 10000000, 1000, 1000⟩ ∧
    (amf_hdr_primary 17 25 = 34000 ∧ round ((17 * 50000 / 25 : ℚ)) = 34000) ∧
    (amf_hdr_primary 8 25 = 16000 ∧ round ((8 * 50000 / 25 : ℚ)) = 16000) ∧
    (amf_hdr_primary 53 200 = 13250 ∧ round ((53 * 50000 / 200 : ℚ)) = 13250) ∧
    (amf_hdr_primary 69 100 = 34500 ∧ round ((69 * 50000 / 100 : ℚ)) = 34500) ∧
    (amf_hdr_primary 3 20 = 7500 ∧ round ((3 * 50000 / 20 : ℚ)) = 7500) ∧
    (amf_hdr_primary 3 50 = 3000 ∧ round ((3 * 50000 / 50 : ℚ)) = 3000) ∧
    (amf_hdr_primary 3127 10000 = 15635 ∧
      round ((3127 * 50000 / 10000 : ℚ)) = 15635) ∧
    (amf_hdr_primary 329 1000 = 16450 ∧
      round ((329 * 50000 / 1000 : ℚ)) = 16450) := by
  have h1 : peak * 10000 % 2 ^ 32 = peak * 10000 := by omega
  have h2 : peak % 65536 = peak := by omega
  refine ⟨?_, fun host_peak => by
    simp only [amf_hevc_hdr_metadata, amf_hdr_primary, amf_make_lum, lum_mul]
    norm_num, by decide, ⟨by decide, ?_⟩,
    ⟨by decide, ?_⟩, ⟨by decide, ?_⟩, ⟨by decide, ?_⟩, ⟨by decide, ?_⟩,
    ⟨by decide, ?_⟩, ⟨by decide, ?_⟩, ⟨by decide, ?_⟩⟩
  · simp only [amf_hevc_hdr_metadata, amf_make_lum, lum_mul, Bool.true_or,
      if_true, Option.some.injEq, AMFHDRMetadata.mk.injEq]
    exact ⟨by decide, by decide, by decide, by decide, by decide, by decide,
      by decide, by decide, by trivial, by omega, by omega, by omega⟩
  all_goals norm_num [round_eq]

/-- Witness for amf_hevc_hdr_metadata_spec at peak = 1000. -/
theorem amf_hevc_hdr_metadata_spec_witness :
    1000 < 65536 ∧
    amf_hevc_hdr_metadata true false 1000 =
      some ⟨34000, 16000, 13250, 34500, 7500, 3000, 15635, 16450,
            0, 1000 * 10000, 1000, 1000⟩ :=
  ⟨by decide, (amf_hevc_hdr_metadata_spec 1000 (by decide)).1⟩

/-- Claim C7: for AV1 under Constant-QP or Quality-VBR, the code
derives qp = quality * 4, sets the QVBR quality level to qp / 4
(recovering the configured quality value exactly, for every integer
quality value) and sets both Q-index properties to qp; quality 20
yields Q-index 80 and QVBR level 20. -/
theorem amf_av1_update_data_qp_spec (bitrate cq_value : Int) :
    (last_set_value
        (amf_av1_update_data AMF_VIDEO_ENCODER_AV1_RATE_CONTROL_METHOD_CONSTANT_QP
          bitrate cq_value) .QVBR_QUALITY_LEVEL = some (.num (cq_value : ℚ))) ∧
    (last_set_value
        (amf_av1_update_data AMF_VIDEO_ENCODER_AV1_RATE_CONTROL_METHOD_CONSTANT_QP
          bitrate cq_value) .Q_INDEX_INTRA = some (.num ((cq_value * 4 : Int) : ℚ))) ∧
    (last_set_value
        (amf_av1_update_data AMF_VIDEO_ENCODER_AV1_RATE_CONTROL_METHOD_CONSTANT_QP
          bitrate cq_value) .Q_INDEX_INTER = some (.num ((cq_value * 4 : Int) : ℚ))) ∧
    (last_set_value
        (amf_av1_update_data AMF_VIDEO_ENCODER_AV1_RATE_CONTROL_METHOD_QUALITY_VBR
          bitrate cq_value) .QVBR_QUALITY_LEVEL = some (.num (cq_value : ℚ))) ∧
    (last_set_value
        (amf_av1_update_data AMF_VIDEO_ENCODER_AV1_RATE_CONTROL_METHOD_QUALITY_VBR
          bitrate cq_value) .Q_INDEX_INTRA = some (.num ((cq_value * 4 : Int) : ℚ))) ∧
    (last_set_value
        (amf_av1_update_data AMF_VIDEO_ENCODER_AV1_RATE_CONTROL_METHOD_QUALITY_VBR
          bitrate cq_value) .Q_INDEX_INTER = some (.num ((cq_value * 4 : Int) : ℚ))) ∧
    (last_set_value
        (amf_av1_update_data AMF_VIDEO_ENCODER_AV1_RATE_CONTROL_METHOD_CONSTANT_QP
          2500000 20) .Q_INDEX_INTRA = some (.num 80)) ∧
    (last_set_value
        (amf_av1_update_data AMF_VIDEO_ENCODER_AV1_RATE_CONTROL_METHOD_CONSTANT_QP
          2500000 20) .QVBR_QUALITY_LEVEL = some (.num 20)) := by
  have hqp : Int.tdiv (cq_value * 4) 4 = cq_value :=
    Int.mul_tdiv_cancel cq_value (by norm_num)
  refine ⟨?_, rfl, rfl, ?_, rfl, rfl, by decide, by decide⟩
  · show (some (amf_variant.num ((Int.tdiv (cq_value * 4) 4 : Int) : ℚ)) :
        Option amf_variant) = some (amf_variant.num (cq_value : ℚ))
    rw [hqp]
  · show (some (amf_variant.num ((Int.tdiv (cq_value * 4) 4 : Int) : ℚ)) :
        Option amf_variant) = some (amf_variant.num (cq_value : ℚ))
    rw [hqp]

/-- Claim C2 (code evaluation at the failing input): amf_av1_update_data
compares the AV1-namespace rate-control value against AVC-namespace
enum constants, so with the configured mode AV1 CBR (the value
get_av1_rate_control returns for "cbr") no filler data is enabled,
while the AV1 Latency-Constrained-VBR mode ("vbr_lat", whose value 1
equals the AVC CBR constant) does enable filler data; the 1.5x peak
bitrate for Peak-Constrained-VBR and High-Quality-VBR is applied as
described. -/
theorem amf_av1_update_data_cbr_filler_behavior :
    get_av1_rate_control "cbr" = AMF_VIDEO_ENCODER_AV1_RATE_CONTROL_METHOD_CBR ∧
    AMF_VIDEO_ENCODER_AV1_RATE_CONTROL_METHOD_CBR ≠
      AMF_VIDEO_ENCODER_RATE_CONTROL_METHOD_CBR ∧
    last_set_value (amf_av1_update_data (get_av1_rate_control "cbr") 5000000 20)
      .FILLER_DATA = none ∧
    last_set_value (amf_av1_update_data (get_av1_rate_control "cbr") 5000000 20)
      .TARGET_BITRATE = some (.num 5000000) ∧
    last_set_value (amf_av1_update_data (get_av1_rate_control "cbr") 5000000 20)
      .PEAK_BITRATE = some (.num 5000000) ∧
    get_av1_rate_control "vbr_lat" =
      AMF_VIDEO_ENCODER_RATE_CONTROL_METHOD_CBR ∧
    last_set_value (amf_av1_update_data (get_av1_rate_control "vbr_lat") 5000000 20)
      .FILLER_DATA = some (.boolean true) ∧
    last_set_value (amf_av1_update_data (get_av1_rate_control "vbr") 5000000 20)
      .PEAK_BITRATE = some (.num 7500000) ∧
    last_set_value (amf_av1_update_data (get_av1_rate_control "hqvbr") 5000000 20)
      .PEAK_BITRATE = some (.num 7500000) := by
  refine ⟨by decide, by decide, by decide, by decide, by decide, by decide,
    by decide, ?_, ?_⟩ <;>
  · show (some (amf_variant.num (((5000000 : Int) : ℚ) * (3 / 2))) :
        Option amf_variant) = some (amf_variant.num 7500000)
    simp only [Option.some.injEq, amf_variant.num.injEq]
    norm_num

/-- Claim C3: convert_to_encoder_packet classifies AVC/HEVC output
types IDR, I, P, B as highest, high, low, disposable and AV1 output
types KEY, INTRA_ONLY, INTER, SWITCH, SHOW_EXISTING as highest, high,
low, disposable, disposable, and sets the keyframe flag exactly when
the output type is the top tier (IDR for AVC/HEVC, KEY for AV1), for
every codec. -/
theorem convert_to_encoder_packet_priority_spec
    (fps_den dts_offset prop_pts data_pts : Int) :
    ((convert_to_encoder_packet .AVC fps_den dts_offset prop_pts data_pts
        AMF_VIDEO_ENCODER_OUTPUT_DATA_TYPE_IDR).priority =
      some .OBS_NAL_PRIORITY_HIGHEST) ∧
    ((convert_to_encoder_packet .AVC fps_den dts_offset prop_pts data_pts
        AMF_VIDEO_ENCODER_OUTPUT_DATA_TYPE_I).priority =
      some .OBS_NAL_PRIORITY_HIGH) ∧
    ((convert_to_encoder_packet .AVC fps_den dts_offset prop_pts data_pts
        AMF_VIDEO_ENCODER_OUTPUT_DATA_TYPE_P).priority =
      some .OBS_NAL_PRIORITY_LOW) ∧
    ((convert_to_encoder_packet .AVC fps_den dts_offset prop_pts data_pts
        AMF_VIDEO_ENCODER_OUTPUT_DATA_TYPE_B).priority =
      some .OBS_NAL_PRIORITY_DISPOSABLE) ∧
    ((convert_to_encoder_packet .HEVC fps_den dts_offset prop_pts data_pts
        AMF_VIDEO_ENCODER_OUTPUT_DATA_TYPE_IDR).priority =
      some .OBS_NAL_PRIORITY_HIGHEST) ∧
    ((convert_to_encoder_packet .HEVC fps_den dts_offset prop_pts data_pts
        AMF_VIDEO_ENCODER_OUTPUT_DATA_TYPE_I).priority =
      some .OBS_NAL_PRIORITY_HIGH) ∧
    ((convert_to_encoder_packet .HEVC fps_den dts_offset prop_pts data_pts
        AMF_VIDEO_ENCODER_OUTPUT_DATA_TYPE_P).priority =
      some .OBS_NAL_PRIORITY_LOW) ∧
    ((convert_to_encoder_packet .HEVC fps_den dts_offset prop_pts data_pts
        AMF_VIDEO_ENCODER_OUTPUT_DATA_TYPE_B).priority =
      some .OBS_NAL_PRIORITY_DISPOSABLE) ∧
    ((convert_to_encoder_packet .AV1 fps_den dts_offset prop_pts data_pts
        AMF_VIDEO_ENCODER_AV1_OUTPUT_FRAME_TYPE_KEY).priority =
      some .OBS_NAL_PRIORITY_HIGHEST) ∧
    ((convert_to_encoder_packet .AV1 fps_den dts_offset prop_pts data_pts
        AMF_VIDEO_ENCODER_AV1_OUTPUT_FRAME_TYPE_INTRA_ONLY).priority =
      some .OBS_NAL_PRIORITY_HIGH) ∧
    ((convert_to_encoder_packet .AV1 fps_den dts_offset prop_pts data_pts
        AMF_VIDEO_ENCODER_AV1_OUTPUT_FRAME_TYPE_INTER).priority =
      some .OBS_NAL_PRIORITY_LOW) ∧
    ((convert_to_encoder_packet .AV1 fps_den dts_offset prop_pts data_pts
        AMF_VIDEO_ENCODER_AV1_OUTPUT_FRAME_TYPE_SWITCH).priority =
      some .OBS_NAL_PRIORITY_DISPOSABLE) ∧
    ((convert_to_encoder_packet .AV1 fps_den dts_offset prop_pts data_pts
        AMF_VIDEO_ENCODER_AV1_OUTPUT_FRAME_TYPE_SHOW_EXISTING).priority =
      some .OBS_NAL_PRIORITY_DISPOSABLE) ∧
    (∀ (codec : amf_codec_type) (output_type : ℕ),
      (convert_to_encoder_packet codec fps_den dts_offset prop_pts data_pts
          output_type).keyframe = true ↔
        ((codec = .AVC ∨ codec = .HEVC) ∧
            output_type = AMF_VIDEO_ENCODER_OUTPUT_DATA_TYPE_IDR) ∨
          (codec = .AV1 ∧
            output_type = AMF_VIDEO_ENCODER_AV1_OUTPUT_FRAME_TYPE_KEY)) := by
  refine ⟨rfl, rfl, rfl, rfl, rfl, rfl, rfl, rfl, rfl, rfl, rfl, rfl, rfl, ?_⟩
  intro codec output_type
  cases codec <;>
    simp [convert_to_encoder_packet, AMF_VIDEO_ENCODER_OUTPUT_DATA_TYPE_IDR,
      AMF_VIDEO_ENCODER_AV1_OUTPUT_FRAME_TYPE_KEY]

/-- Claim C5: in the per-frame submit/query loop, a first submit
returning success or need-more-input ends submission after a single
drain, whose FIFO is then popped (received_packet true with the oldest
entry) exactly when non-empty; a first submit with any other error code
fails with an SDK error; a perpetually full input queue fails with the
submit-timeout error after the 1 ms-sleep retries exhaust the 5-second
budget; and an error-free drain appends exactly the non-null outputs to
the FIFO in order. -/
theorem amf_encode_base_spec :
    (∀ (rest : ℕ → submit_result) (queries : List query_step) (queued : List ℕ),
      amf_encode_base (fun n => if n = 0 then .AMF_OK else rest n) queries queued =
        match query_loop queries queued with
        | .error e => .error e
        | .ok (_, q) =>
          match q with
          | [] => .ok (false, none, [])
          | p :: r => .ok (true, some p, r)) ∧
    (∀ (rest : ℕ → submit_result) (queries : List query_step) (queued : List ℕ),
      amf_encode_base (fun n => if n = 0 then .AMF_NEED_MORE_INPUT else rest n)
          queries queued =
        match query_loop queries queued with
        | .error e => .error e
        | .ok (_, q) =>
          match q with
          | [] => .ok (false, none, [])
          | p :: r => .ok (true, some p, r)) ∧
    (∀ (c : Int) (rest : ℕ → submit_result) (queries : List query_step)
        (queued : List ℕ),
      amf_encode_base (fun n => if n = 0 then .failed c else rest n)
          queries queued = .error (.submit_failed c)) ∧
    (∀ queued : List ℕ,
      amf_encode_base (fun _ => .AMF_INPUT_FULL) [] queued =
        .error .submit_timed_out) ∧
    submit_fuel + 1 = submit_timeout_sec * 1000 / os_sleep_interval_ms ∧
    (∀ (outs : List (Bool × Option ℕ)) (queued : List ℕ),
      ∃ rest, query_loop (ok_steps outs) queued =
        .ok (rest, queued ++ drained_outputs (ok_steps outs))) := by
  refine ⟨?_, ?_, ?_, ?_, by decide, query_loop_ok_steps⟩
  · intro rest queries queued
    simp only [amf_encode_base, submit_query_loop]
  · intro rest queries queued
    simp only [amf_encode_base, submit_query_loop]
  · intro c rest queries queued
    simp only [amf_encode_base, submit_query_loop]
  · intro queued
    simp only [amf_encode_base]
    rw [submit_query_loop_input_full]

/-- Claim C1 (counterexample): on an AV1 context with active preset
"highQuality" and an unknown (zero) throughput ceiling,
check_preset_compatibility does not resolve to "quality": the
"quality" block re-examines the just-dropped preset against the still
unknown ceiling and drops it again, so the resolved preset is
"balanced". -/
theorem check_preset_compatibility_unknown_ceiling_cex :
    (check_preset_compatibility get_av1_preset (fun _ => none)
        { preset := "highQuality", max_throughput := 0, throughput := 489600,
          quality_preset_trace := [], caps_queries := [] }).preset =
      "balanced" ∧
    ¬((check_preset_compatibility get_av1_preset (fun _ => none)
        { preset := "highQuality", max_throughput := 0, throughput := 489600,
          quality_preset_trace := [], caps_queries := [] }).preset =
      "quality") := by
  decide

/-- Claim C1 (amended): with the active preset "highQuality" and an
unknown (zero) throughput ceiling, check_preset_compatibility first
drops to "quality" (re-applying the preset property, without any
capability re-query since no ceiling is known), then the sequential
"quality" block sees the still-zero ceiling and drops again to
"balanced" (again re-applying the preset property and performing no
capability re-query); the resolved preset is "balanced", the cascade
never upgrades, and the unknown ceiling is never tested against the
required throughput. -/
theorem check_preset_compatibility_unknown_ceiling :
    ∀ (get_preset : String → Int) (caps : String → Option Int)
      (throughput : Int),
      check_preset_compatibility get_preset caps
          { preset := "highQuality", max_throughput := 0,
            throughput := throughput, quality_preset_trace := [],
            caps_queries := [] } =
        { preset := "balanced", max_throughput := 0,
          throughput := throughput,
          quality_preset_trace := [get_preset "quality", get_preset "balanced"],
          caps_queries := [] } := by
  intro get_preset caps throughput
  rfl

/-- Claim C9: the fallback constructors reject, before any vendor-SDK
work, AVC with a 10-bit (I010/P010) source format, and any codec with
an 8-bit (non-I010/P010) source format against a Rec. 2100 (PQ or HLG)
colorspace; in each rejected case the user-facing message is set via
the last-error mechanism and creation fails (returns null), and no
other format/colorspace combination is rejected by this gate. -/
theorem amf_create_fallback_reject_spec :
    ∀ (fmt : video_format) (cs : video_colorspace),
      ((amf_avc_create_fallback fmt cs).proceeds_to_sdk = false ↔
        (fmt = .VIDEO_FORMAT_I010 ∨ fmt = .VIDEO_FORMAT_P010) ∨
          (cs = .VIDEO_CS_2100_PQ ∨ cs = .VIDEO_CS_2100_HLG)) ∧
      ((amf_avc_create_fallback fmt cs).last_error =
          some (obs_module_text "AMF.10bitUnsupportedAvc") ↔
        (fmt = .VIDEO_FORMAT_I010 ∨ fmt = .VIDEO_FORMAT_P010)) ∧
      ((amf_avc_create_fallback fmt cs).last_error =
          some (obs_module_text "AMF.8bitUnsupportedHdr") ↔
        (¬(fmt = .VIDEO_FORMAT_I010 ∨ fmt = .VIDEO_FORMAT_P010) ∧
          (cs = .VIDEO_CS_2100_PQ ∨ cs = .VIDEO_CS_2100_HLG))) ∧
      ((amf_avc_create_fallback fmt cs).proceeds_to_sdk = false ↔
        (amf_avc_create_fallback fmt cs).last_error ≠ none) ∧
      ((amf_hevc_create_fallback fmt cs).proceeds_to_sdk = false ↔
        (¬(fmt = .VIDEO_FORMAT_I010 ∨ fmt = .VIDEO_FORMAT_P010) ∧
          (cs = .VIDEO_CS_2100_PQ ∨ cs = .VIDEO_CS_2100_HLG))) ∧
      ((amf_hevc_create_fallback fmt cs).proceeds_to_sdk = false ↔
        (amf_hevc_create_fallback fmt cs).last_error =
          some (obs_module_text "AMF.8bitUnsupportedHdr")) ∧
      ((amf_av1_create_fallback fmt cs).proceeds_to_sdk = false ↔
        (¬(fmt = .VIDEO_FORMAT_I010 ∨ fmt = .VIDEO_FORMAT_P010) ∧
          (cs = .VIDEO_CS_2100_PQ ∨ cs = .VIDEO_CS_2100_HLG))) ∧
      ((amf_av1_create_fallback fmt cs).proceeds_to_sdk = false ↔
        (amf_av1_create_fallback fmt cs).last_error =
          some (obs_module_text "AMF.8bitUnsupportedHdr")) := by
  intro fmt cs
  cases fmt <;> cases cs <;> decide

/-- Claim C10: the surface-release callbacks (texture and fallback
variants) move an entry from the active map to the available pool at
most once per surface: with the destroying flag set, or when the
surface is absent from the active map, the state is unchanged;
releasing the same surface a second time is a no-op (so duplicate or
late notifications never duplicate a pool entry), and one release grows
the pool by at most one entry. -/
theorem OnSurfaceDataRelease_at_most_once (st : surface_pool_state)
    (surf : ℕ) :
    (st.destroying = true →
      amf_texencode_OnSurfaceDataRelease st surf = st ∧
      amf_fallback_OnSurfaceDataRelease st surf = st) ∧
    (st.active.lookup surf = none →
      amf_texencode_OnSurfaceDataRelease st surf = st ∧
      amf_fallback_OnSurfaceDataRelease st surf = st) ∧
    amf_texencode_OnSurfaceDataRelease
        (amf_texencode_OnSurfaceDataRelease st surf) surf =
      amf_texencode_OnSurfaceDataRelease st surf ∧
    amf_fallback_OnSurfaceDataRelease
        (amf_fallback_OnSurfaceDataRelease st surf) surf =
      amf_fallback_OnSurfaceDataRelease st surf ∧
    (amf_texencode_OnSurfaceDataRelease st surf).available.length ≤
      st.available.length + 1 ∧
    (amf_fallback_OnSurfaceDataRelease st surf).available.length ≤
      st.available.length + 1 := by
  have hsame : ∀ s u, amf_texencode_OnSurfaceDataRelease s u =
      amf_fallback_OnSurfaceDataRelease s u := by
    intro s u
    simp [amf_texencode_OnSurfaceDataRelease, amf_fallback_OnSurfaceDataRelease]
  have hdestroy : st.destroying = true →
      amf_texencode_OnSurfaceDataRelease st surf = st := by
    intro h
    simp [amf_texencode_OnSurfaceDataRelease, h]
  have habsent : st.active.lookup surf = none →
      amf_texencode_OnSurfaceDataRelease st surf = st := by
    intro h
    simp [amf_texencode_OnSurfaceDataRelease, h]
  have hidem : amf_texencode_OnSurfaceDataRelease
      (amf_texencode_OnSurfaceDataRelease st surf) surf =
      amf_texencode_OnSurfaceDataRelease st surf := by
    by_cases hd : st.destroying = true
    · rw [hdestroy hd, hdestroy hd]
    · have hd' : st.destroying = false := by
        cases h : st.destroying
        · rfl
        · exact absurd h hd
      cases hl : st.active.lookup surf with
      | none => rw [habsent hl, habsent hl]
      | some tex =>
        have hstep : amf_texencode_OnSurfaceDataRelease st surf =
            { st with
              available := st.available ++ [tex]
              active := st.active.filter (fun p => !(p.1 == surf)) } := by
          simp [amf_texencode_OnSurfaceDataRelease, hd', hl]
        rw [hstep]
        simp [amf_texencode_OnSurfaceDataRelease, hd',
          lookup_filter_self_none]
  have hlen : (amf_texencode_OnSurfaceDataRelease st surf).available.length ≤
      st.available.length + 1 := by
    by_cases hd : st.destroying = true
    · rw [hdestroy hd]; omega
    · have hd' : st.destroying = false := by
        cases h : st.destroying
        · rfl
        · exact absurd h hd
      cases hl : st.active.lookup surf with
      | none => rw [habsent hl]; omega
      | some tex =>
        simp [amf_texencode_OnSurfaceDataRelease, hd', hl]
  refine ⟨fun h => ⟨hdestroy h, ?_⟩, fun h => ⟨habsent h, ?_⟩, hidem, ?_, hlen, ?_⟩
  · rw [← hsame]; exact hdestroy h
  · rw [← hsame]; exact habsent h
  · rw [← hsame, ← hsame]; exact hidem
  · rw [← hsame]; exact hlen

/-- Witness for OnSurfaceDataRelease_at_most_once: with the destroying
flag set, a release notification leaves the state unchanged. -/
theorem OnSurfaceDataRelease_at_most_once_witness :
    (({ destroying := true, available := [5], active := [(1, 2)] } :
        surface_pool_state).destroying = true) ∧
    amf_texencode_OnSurfaceDataRelease
        { destroying := true, available := [5], active := [(1, 2)] } 1 =
      { destroying := true, available := [5], active := [(1, 2)] } :=
  ⟨rfl,
    ((OnSurfaceDataRelease_at_most_once
      { destroying := true, available := [5], active := [(1, 2)] } 1).1 rfl).1⟩
